import Mathlib

/-!
Verification of the sprint-analytics core of `team-lead-tools`
(`internal/jira/task.py` and `internal/jira/sprint.py`).

Shallow embedding conventions:
* Python floats are modelled as `ℚ` (story points, sums, percentages).
* `datetime` values are modelled as `Int` seconds; `date` values as `Int`
  day numbers (midnight of day `d` is second `d * 86400`).
* Python `None` for dates becomes `Option.none`.  `pd.to_datetime(...,
  errors='coerce')` yields `NaT` for unparsable text; `NaT` compares as
  false against any timestamp and its `.date()` also propagates `NaT`, so
  for the two predicates below an unparsable date is observationally
  identical to `None` and is modelled as `Option.none`.
* Python `dict` (insertion ordered, key-updating) is modelled as an
  association list updated in place (`updateAdd` / `dictUpd`).
* Python `set` is modelled as `Finset`.
* A Python attribute access on a missing method raises `AttributeError`;
  methods whose bodies can raise are modelled in the `Except PyError`
  monad.  `Task` (task.py lines 6-158) defines no `HasLabel` method, so
  the call `task.HasLabel(label)` made by sprint.py raises.
-/

namespace Jira

inductive PyError where
  | attributeError
deriving DecidableEq, Repr

/-- One input cell as seen by `Task._parse_story_points` (task.py 47-54):
`nanValue` covers `None`/float-NaN inputs (`pd.isna` is true), `num q` a
value for which `float(value)` returns `q`, and `invalid` a value for
which `float(value)` raises `ValueError`/`TypeError`. -/
inductive CellValue where
  | nanValue
  | num (q : ℚ)
  | invalid
deriving DecidableEq, Repr

/-- `Task._parse_story_points` (task.py 47-54): `pd.isna(value)` yields
`0.0`; otherwise `float(value)` is returned, and a parse failure is
caught and coerced to `0.0`. -/
def parseStoryPoints : CellValue → ℚ
  | .nanValue => 0
  | .num q => q
  | .invalid => 0

/-- One date cell as seen by `Task._parse_date` (task.py 56-73):
`absent` covers missing/empty/NaN cells, `valid s` a cell parsing to the
timestamp `s` (seconds), `invalid` a cell for which every parse attempt
fails (yielding `NaT`, observationally absent for the two predicates). -/
inductive DateCell where
  | absent
  | valid (secs : Int)
  | invalid
deriving DecidableEq, Repr

/-- `Task._parse_date` (task.py 56-73), collapsed to its observable
result: a usable timestamp or nothing, never an exception. -/
def parseDate : DateCell → Option Int
  | .absent => none
  | .valid s => some s
  | .invalid => none

/-- The fields of one input row after the loader's column renaming, as
read by `Task.__init__` (task.py 14-45).  A missing column is the
default of the corresponding `row_data.get`. -/
structure Row where
  summary : String
  issue_key : String
  issue_type : String
  status : String
  status_category : String
  platform : String
  assignee : String
  labels : String
  story_points : CellValue
  created : DateCell
  updated : DateCell
  statusCategoryChanged : DateCell
  sprint : String
deriving DecidableEq, Repr

/-- The `Task` entity (task.py 6-158).  `labels` is stored raw, exactly
as `self.labels = row_data.get('Labels', '')` does: task.py never parses
the label field. -/
structure Task where
  summary : String
  issue_key : String
  issue_type : String
  status : String
  status_category : String
  platform : String
  assignee : String
  labels : String
  story_points : ℚ
  created_date : Option Int
  updated_date : Option Int
  closure_date : Option Int
deriving DecidableEq, Repr

/-- `Task.__init__` (task.py 14-45). -/
def Task.ofRow (r : Row) : Task :=
  { summary := r.summary
    issue_key := r.issue_key
    issue_type := r.issue_type
    status := r.status
    status_category := r.status_category
    platform := r.platform
    assignee := r.assignee
    labels := r.labels
    story_points := parseStoryPoints r.story_points
    created_date := parseDate r.created
    updated_date := parseDate r.updated
    closure_date := parseDate r.statusCategoryChanged }

def secondsPerDay : Int := 86400

/-- Midnight of day `d`, i.e. `pd.to_datetime` applied to a `date`. -/
def dayStart (d : Int) : Int := d * secondsPerDay

/-- `sprint_end + timedelta(days=1) - timedelta(seconds=1)` (task.py
110-111): the last second of day `d`. -/
def endOfDay (d : Int) : Int := dayStart d + secondsPerDay - 1

/-- `Task.IsClosed` (task.py 75-114).  Both branches of the
`hasattr(..., 'date')` test at lines 99-107 perform the same
`pd.to_datetime` conversion, so the sprint boundaries are simply the
given dates converted to midnight timestamps. -/
def Task.IsClosed (t : Task) (sprint_start_date sprint_end_date : Int) : Bool :=
  if t.status_category ≠ "Done" then false
  else
    match t.closure_date with
    | none => false
    | some c => decide (dayStart sprint_start_date ≤ c ∧ c ≤ endOfDay sprint_end_date)

/-- `Task.IsOriginallyPlanned` (task.py 116-130): calendar-date
comparison `created_date.date() <= sprint_start.date()`; the date of a
timestamp is its floor day. -/
def Task.IsOriginallyPlanned (t : Task) (sprint_start_date : Int) : Bool :=
  match t.created_date with
  | none => false
  | some c => decide (c.fdiv secondsPerDay ≤ sprint_start_date)

/-- The `Task` class defines no `HasLabel` method (task.py 6-158), so in
Python the attribute access `task.HasLabel` raises `AttributeError`
before any comparison happens. -/
def Task.HasLabel (_t : Task) (_label : String) : Except PyError Bool :=
  .error .attributeError

/-- `Task.GetPlatform` (task.py 132-134). -/
def Task.GetPlatform (t : Task) : String := t.platform

/-- `Task.GetStoryPoints` (task.py 136-138). -/
def Task.GetStoryPoints (t : Task) : ℚ := t.story_points

/-- `Task.GetIssueType` (task.py 140-142). -/
def Task.GetIssueType (t : Task) : String := t.issue_type

/-- `Task.GetAssignee` (task.py 144-146). -/
def Task.GetAssignee (t : Task) : String := t.assignee

/-- `Task.GetLabels` (task.py 148-150): returns the raw, unparsed label
string. -/
def Task.GetLabels (t : Task) : String := t.labels

/-! ## Rounding

Python's built-in `round(x, 1)` rounds to one decimal with ties going to
the nearest even multiple of `1/10` (banker's rounding), modelled here
over `ℚ`. -/

/-- Round a rational to the nearest integer, ties to even. -/
def roundHalfEven (q : ℚ) : ℤ :=
  let f : ℤ := ⌊q⌋
  let r : ℚ := q - f
  if r < 1/2 then f
  else if 1/2 < r then f + 1
  else if f % 2 = 0 then f else f + 1

/-- Python `round(x, 1)`. -/
def round1 (q : ℚ) : ℚ := (roundHalfEven (q * 10) : ℚ) / 10

/-! ## Python dict modelling

A Python `dict` built by the `if key not in d: d[key] = init` /
`d[key] = f(d[key])` pattern is an insertion-ordered association list. -/

/-- Update an insertion-ordered association list at `k`: an existing
entry is replaced by `f` of its value in place, a missing key is
appended at the end with value `f init`. -/
def dictUpd {α β : Type} [DecidableEq α] (init : β) (f : β → β) :
    List (α × β) → α → List (α × β)
  | [], k => [(k, f init)]
  | (k', v) :: rest, k =>
      if k' = k then (k', f v) :: rest else (k', v) :: dictUpd init f rest k

/-- The `if key not in d: d[key] = 0` / `d[key] += v` accumulation
pattern used for contributor-point and capacity dicts. -/
def updateAdd {α : Type} [DecidableEq α] (l : List (α × ℚ)) (k : α) (v : ℚ) :
    List (α × ℚ) :=
  dictUpd 0 (· + v) l k

/-- Keys of an association list, in insertion order. -/
def keysOf {α β : Type} (l : List (α × β)) : List α := l.map Prod.fst

/-- Total value stored under key `k` (with nodup keys: the value of the
unique entry for `k`, or `0` when absent). -/
def valAt {α : Type} [DecidableEq α] (l : List (α × ℚ)) (k : α) : ℚ :=
  ((l.filter fun p => decide (p.1 = k)).map Prod.snd).sum

/-- Generic embedding of the loops that fold a task list into an
accumulation dict: tasks failing `use` are skipped, the others add
their story points under `key t`. -/
def dsumBy {α : Type} [DecidableEq α] (key : Task → α) (use : Task → Bool)
    (l : List Task) : List (α × ℚ) :=
  l.foldl (fun acc t => if use t then updateAdd acc (key t) t.story_points else acc) []

/-! ## The per-group accumulator record

Both `GetPlatformMetrics` (sprint.py 172-197) and
`GetPlatformLabelMetrics` (sprint.py 322-347) accumulate this record per
group key. -/

structure GroupAcc where
  total_planned_points : ℚ
  completed_points : ℚ
  originally_planned_points : ℚ
  originally_completed_points : ℚ
  completed_items : Nat
  contributors : Finset String
deriving DecidableEq

/-- The zero-initialised group record (sprint.py 173-180 / 323-330). -/
def GroupAcc.init : GroupAcc :=
  { total_planned_points := 0
    completed_points := 0
    originally_planned_points := 0
    originally_completed_points := 0
    completed_items := 0
    contributors := ∅ }

/-- One task's contribution to its group record (sprint.py 182-197 /
332-347).  `closed` and `planned` are the identity-membership tests
`task in closed_tasks` / `task in originally_planned_tasks`, which for a
task of the backing list reduce to its `IsClosed` / `IsOriginallyPlanned`
predicate (both filtered lists keep the very same objects, and the
predicates are pure functions of the task's fields). -/
def GroupAcc.addTask (t : Task) (closed planned : Bool) (g : GroupAcc) : GroupAcc :=
  { total_planned_points := g.total_planned_points + t.GetStoryPoints
    contributors := insert t.GetAssignee g.contributors
    completed_points := if closed then g.completed_points + t.GetStoryPoints else g.completed_points
    completed_items := if closed then g.completed_items + 1 else g.completed_items
    originally_planned_points :=
      if planned then g.originally_planned_points + t.GetStoryPoints else g.originally_planned_points
    originally_completed_points :=
      if planned ∧ closed then g.originally_completed_points + t.GetStoryPoints
      else g.originally_completed_points }

/-! ## The Sprint aggregator (sprint.py 7-586)

The `_closed_tasks` / `_originally_planned_tasks` / `_platform_metrics`
instance caches memoize pure functions of immutable state, so the
embedding computes them directly. -/

structure Sprint where
  tasks : List Task
  start_date : Int
  end_date : Int

/-- `Sprint.GetClosedTasks` (sprint.py 34-38). -/
def Sprint.GetClosedTasks (s : Sprint) : List Task :=
  s.tasks.filter fun t => t.IsClosed s.start_date s.end_date

/-- `Sprint.GetOriginallyPlannedTasks` (sprint.py 40-44). -/
def Sprint.GetOriginallyPlannedTasks (s : Sprint) : List Task :=
  s.tasks.filter fun t => t.IsOriginallyPlanned s.start_date

/-- `Sprint.GetActivePlatforms` (sprint.py 46-53): sorted list of the
set of non-empty platform tags. -/
def Sprint.GetActivePlatforms (s : Sprint) : List String :=
  (((s.tasks.map Task.GetPlatform).filter fun p => p ≠ "").toFinset).sort (· ≤ ·)

/-- `Sprint.GetTotalCompletedStoryPoints` (sprint.py 55-57). -/
def Sprint.GetTotalCompletedStoryPoints (s : Sprint) : ℚ :=
  (s.GetClosedTasks.map Task.GetStoryPoints).sum

/-- `Sprint.GetTotalPlannedStoryPoints` (sprint.py 59-61). -/
def Sprint.GetTotalPlannedStoryPoints (s : Sprint) : ℚ :=
  (s.tasks.map Task.GetStoryPoints).sum

/-- `Sprint.GetOriginallyPlannedStoryPoints` (sprint.py 63-65). -/
def Sprint.GetOriginallyPlannedStoryPoints (s : Sprint) : ℚ :=
  (s.GetOriginallyPlannedTasks.map Task.GetStoryPoints).sum

/-- `Sprint.GetOriginallyCompletedStoryPoints` (sprint.py 67-80): sums
story points over closed tasks whose `id` is in the id-set of the
originally-planned list.  For a task object of `closed_tasks` (a
sublist of `self.tasks`), membership of its `id` in
`{id(t) | t in originally_planned}` holds exactly when the task itself
satisfies `IsOriginallyPlanned`, because both lists filter the same
backing list and the predicate depends only on the task's fields. -/
def Sprint.GetOriginallyCompletedStoryPoints (s : Sprint) : ℚ :=
  ((s.GetClosedTasks.filter fun t => t.IsOriginallyPlanned s.start_date).map
    Task.GetStoryPoints).sum

/-- `Sprint.GetCompletedItems` (sprint.py 82-84). -/
def Sprint.GetCompletedItems (s : Sprint) : Nat :=
  s.GetClosedTasks.length

/-- `Sprint.GetTotalContributors` (sprint.py 86-93): size of the set of
non-empty assignees across all tasks. -/
def Sprint.GetTotalContributors (s : Sprint) : Nat :=
  (((s.tasks.map Task.GetAssignee).filter fun a => a ≠ "").toFinset).card

/-- The `contributor_points` dict of
`Sprint.GetFullTimeContributorsCount` (sprint.py 111-119): fold over
closed tasks, skipping empty assignees, summing story points per
assignee. -/
def Sprint.contributorPoints (s : Sprint) : List (String × ℚ) :=
  dsumBy Task.GetAssignee (fun t => t.GetAssignee ≠ "") s.GetClosedTasks

/-- `Sprint.GetFullTimeContributorsCount` (sprint.py 109-123): number of
dict values `>= 5.0`. -/
def Sprint.GetFullTimeContributorsCount (s : Sprint) : Nat :=
  (s.contributorPoints.filter fun p => decide (5 ≤ p.2)).length

/-- `Sprint.GetAverageStoryPointsPerItem` (sprint.py 95-100). -/
def Sprint.GetAverageStoryPointsPerItem (s : Sprint) : ℚ :=
  if s.GetCompletedItems = 0 then 0
  else s.GetTotalCompletedStoryPoints / s.GetCompletedItems

/-- `Sprint.GetAverageCapacityPerContributor` (sprint.py 102-107). -/
def Sprint.GetAverageCapacityPerContributor (s : Sprint) : ℚ :=
  if s.GetFullTimeContributorsCount = 0 then 0
  else s.GetTotalCompletedStoryPoints / s.GetFullTimeContributorsCount

/-- `Sprint.GetNaiveScopeDrop` (sprint.py 125-136): unrounded percentage,
`0.0` when nothing was planned. -/
def Sprint.GetNaiveScopeDrop (s : Sprint) : ℚ :=
  if s.GetTotalPlannedStoryPoints = 0 then 0
  else
    (s.GetTotalPlannedStoryPoints - s.GetTotalCompletedStoryPoints) /
      s.GetTotalPlannedStoryPoints * 100

/-- `Sprint.GetActualScopeDrop` (sprint.py 138-149): unrounded
percentage, `0.0` when nothing was originally planned. -/
def Sprint.GetActualScopeDrop (s : Sprint) : ℚ :=
  if s.GetOriginallyPlannedStoryPoints = 0 then 0
  else
    (s.GetOriginallyPlannedStoryPoints - s.GetOriginallyCompletedStoryPoints) /
      s.GetOriginallyPlannedStoryPoints * 100

/-- The `platforms` dict of `Sprint.GetPlatformMetrics` (sprint.py
162-197): every task with a non-empty platform tag is folded into its
platform's group record; tasks with an empty tag are skipped
(`if not platform: continue`, line 169). -/
def Sprint.platformGroups (s : Sprint) : List (String × GroupAcc) :=
  s.tasks.foldl
    (fun acc t =>
      if t.GetPlatform = "" then acc
      else
        dictUpd GroupAcc.init
          (GroupAcc.addTask t (t.IsClosed s.start_date s.end_date)
            (t.IsOriginallyPlanned s.start_date))
          acc t.GetPlatform)
    []

/-- The `platform_contributor_points` dict (sprint.py 209-218): closed
tasks of the platform with a non-empty assignee, summed per assignee. -/
def Sprint.platformContributorPoints (s : Sprint) (platform : String) : List (String × ℚ) :=
  dsumBy Task.GetAssignee
    (fun t => t.IsClosed s.start_date s.end_date && t.GetAssignee ≠ "")
    (s.tasks.filter fun t => t.GetPlatform = platform)

/-- One row of the `GetPlatformMetrics` table (sprint.py 234-246). -/
structure PlatRow where
  Platform : String
  Completed_Story_Points : ℚ
  Completed_Items : Nat
  Avg_Story_Points : ℚ
  Contributors : Nat
  Avg_Capacity_Per_Contributor : ℚ
  Total_Planned_Story_Points : ℚ
  First_Day_Planned_Story_Points : ℚ
  First_Day_Completed_Story_Points : ℚ
  Naive_Scope_Drop : ℚ
  Actual_Scope_Drop : ℚ
deriving DecidableEq, Repr

/-- Row construction of `GetPlatformMetrics` (sprint.py 200-246).  The
`contributors_count` of line 206 is computed but never emitted; the
`Contributors` column holds the full-time count (line 239). -/
def Sprint.mkPlatRow (s : Sprint) (pm : String × GroupAcc) : PlatRow :=
  let m := pm.2
  let avg : ℚ := if 0 < m.completed_items then m.completed_points / m.completed_items else 0
  let ftc : Nat := (s.platformContributorPoints pm.1 |>.filter fun p => decide (5 ≤ p.2)).length
  let avgCap : ℚ := if 0 < ftc then m.completed_points / ftc else 0
  let naive : ℚ :=
    if 0 < m.total_planned_points then
      (m.total_planned_points - m.completed_points) / m.total_planned_points * 100
    else 0
  let actual : ℚ :=
    if 0 < m.originally_planned_points then
      (m.originally_planned_points - m.originally_completed_points) /
        m.originally_planned_points * 100
    else 0
  { Platform := pm.1
    Completed_Story_Points := round1 m.completed_points
    Completed_Items := m.completed_items
    Avg_Story_Points := round1 avg
    Contributors := ftc
    Avg_Capacity_Per_Contributor := round1 avgCap
    Total_Planned_Story_Points := round1 m.total_planned_points
    First_Day_Planned_Story_Points := round1 m.originally_planned_points
    First_Day_Completed_Story_Points := round1 m.originally_completed_points
    Naive_Scope_Drop := round1 naive
    Actual_Scope_Drop := round1 actual }

/-- `Sprint.GetPlatformMetrics` (sprint.py 151-249), as the list of its
rows in dict insertion order. -/
def Sprint.GetPlatformMetrics (s : Sprint) : List PlatRow :=
  s.platformGroups.map s.mkPlatRow

/-- The `capacity_by_type` dict of `Sprint.GetCapacityByType`
(sprint.py 253-263): closed tasks keyed by `(platform, issue_type)`,
with no empty-platform skip. -/
def Sprint.capacityByTypeDict (s : Sprint) : List ((String × String) × ℚ) :=
  dsumBy (fun t => (t.GetPlatform, t.GetIssueType)) (fun _ => true) s.GetClosedTasks

/-- One row of the `GetCapacityByType` table (sprint.py 266-272). -/
structure CapacityRow where
  Platform : String
  Issue_Type : String
  Story_Points : ℚ
deriving DecidableEq, Repr

/-- `Sprint.GetCapacityByType` (sprint.py 251-274): each dict entry
becomes a row, story points rounded at output. -/
def Sprint.GetCapacityByType (s : Sprint) : List CapacityRow :=
  s.capacityByTypeDict.map fun kv => ⟨kv.1.1, kv.1.2, round1 kv.2⟩

/-- `Sprint.GetAICapacity` (sprint.py 276-291): sums story points over
closed tasks carrying the 'vibe-codable' label — but the per-task test
`task.HasLabel('vibe-codable')` raises `AttributeError`, so the method
only ever returns when the closed-task list is empty. -/
def Sprint.GetAICapacity (s : Sprint) : Except PyError ℚ := do
  let total ← s.GetClosedTasks.foldlM
    (fun acc t => do
      let b ← t.HasLabel "vibe-codable"
      pure (if b then acc + t.GetStoryPoints else acc))
    (0 : ℚ)
  pure (round1 total)

/-- The label sequence iterated per task by `GetPlatformLabelMetrics`
(sprint.py 316-321): `task.GetLabels()` is the raw string; an empty
string is replaced by the singleton `['No Label']`, and a non-empty
string is iterated by Python character by character, yielding 1-character
strings. -/
def Task.labelIter (t : Task) : List String :=
  if t.GetLabels = "" then ["No Label"]
  else t.GetLabels.data.map Char.toString

/-- The `labels` dict of `GetPlatformLabelMetrics` (sprint.py 310-347):
each platform task adds its full metrics under every element of its
iterated label sequence. -/
def Sprint.labelGroups (s : Sprint) (platform_tasks : List Task) : List (String × GroupAcc) :=
  platform_tasks.foldl
    (fun acc t =>
      t.labelIter.foldl
        (fun acc label =>
          dictUpd GroupAcc.init
            (GroupAcc.addTask t (t.IsClosed s.start_date s.end_date)
              (t.IsOriginallyPlanned s.start_date))
            acc label)
        acc)
    []

/-- One row of the `GetPlatformLabelMetrics` table (sprint.py 390-402). -/
structure LabelRow where
  Label : String
  Completed_Story_Points : ℚ
  Completed_Items : Nat
  Avg_Story_Points : ℚ
  Contributors : Nat
  Avg_Capacity_Per_Contributor : ℚ
  Total_Planned_Story_Points : ℚ
  First_Day_Planned_Story_Points : ℚ
  First_Day_Completed_Story_Points : ℚ
  Naive_Scope_Drop : ℚ
  Actual_Scope_Drop : ℚ
deriving DecidableEq, Repr

/-- `Sprint.GetPlatformLabelMetrics` (sprint.py 293-404).  An empty
platform filter returns the empty table (line 308).  Otherwise the
per-label output loop evaluates
`[task for task in platform_tasks if task.HasLabel(label)]` (line 359),
which raises `AttributeError` on the first platform task. -/
def Sprint.GetPlatformLabelMetrics (s : Sprint) (platform : String) :
    Except PyError (List LabelRow) :=
  let platform_tasks := s.tasks.filter fun t => t.GetPlatform = platform
  if platform_tasks.isEmpty then pure []
  else
    (s.labelGroups platform_tasks).foldlM
      (fun rows lm => do
        let m := lm.2
        let avg : ℚ := if 0 < m.completed_items then m.completed_points / m.completed_items else 0
        let label_tasks ← platform_tasks.filterM fun t => t.HasLabel lm.1
        let lcp := dsumBy Task.GetAssignee
          (fun t => t.IsClosed s.start_date s.end_date && t.GetAssignee ≠ "") label_tasks
        let ftc : Nat := (lcp.filter fun p => decide (5 ≤ p.2)).length
        let avgCap : ℚ := if 0 < ftc then m.completed_points / ftc else 0
        let naive : ℚ :=
          if 0 < m.total_planned_points then
            (m.total_planned_points - m.completed_points) / m.total_planned_points * 100
          else 0
        let actual : ℚ :=
          if 0 < m.originally_planned_points then
            (m.originally_planned_points - m.originally_completed_points) /
              m.originally_planned_points * 100
          else 0
        pure
          (if decide (0 < m.completed_points) || decide (0 < m.completed_items) || decide (0 < ftc) then
            rows ++
              [{ Label := lm.1
                 Completed_Story_Points := round1 m.completed_points
                 Completed_Items := m.completed_items
                 Avg_Story_Points := round1 avg
                 Contributors := ftc
                 Avg_Capacity_Per_Contributor := round1 avgCap
                 Total_Planned_Story_Points := round1 m.total_planned_points
                 First_Day_Planned_Story_Points := round1 m.originally_planned_points
                 First_Day_Completed_Story_Points := round1 m.originally_completed_points
                 Naive_Scope_Drop := round1 naive
                 Actual_Scope_Drop := round1 actual }]
          else rows))
      []

/-- The numeric content of the `GetSummary` dict (sprint.py 553-577);
the `sprint_period` display string is presentation-only and omitted. -/
structure Summary where
  total_tasks : Nat
  active_platforms : Nat
  platforms : List String
  total_completed : ℚ
  total_planned : ℚ
  originally_planned : ℚ
  originally_completed : ℚ
  ai_capacity : ℚ
  naive_scope_drop : ℚ
  actual_scope_drop : ℚ
  completed_items : Nat
  total_contributors : Nat
  full_time_contributors : Nat
  avg_capacity_per_contributor : ℚ
  avg_story_points_per_item : ℚ
deriving DecidableEq, Repr

/-- `Sprint.GetSummary` (sprint.py 553-577): bundles every scalar
metric; the `'ai_capacity'` entry calls `GetAICapacity`, so the whole
dict construction raises whenever a closed task exists. -/
def Sprint.GetSummary (s : Sprint) : Except PyError Summary := do
  let ai ← s.GetAICapacity
  pure
    { total_tasks := s.tasks.length
      active_platforms := s.GetActivePlatforms.length
      platforms := s.GetActivePlatforms
      total_completed := s.GetTotalCompletedStoryPoints
      total_planned := s.GetTotalPlannedStoryPoints
      originally_planned := s.GetOriginallyPlannedStoryPoints
      originally_completed := s.GetOriginallyCompletedStoryPoints
      ai_capacity := ai
      naive_scope_drop := round1 s.GetNaiveScopeDrop
      actual_scope_drop := round1 s.GetActualScopeDrop
      completed_items := s.GetCompletedItems
      total_contributors := s.GetTotalContributors
      full_time_contributors := s.GetFullTimeContributorsCount
      avg_capacity_per_contributor := round1 s.GetAverageCapacityPerContributor
      avg_story_points_per_item := round1 s.GetAverageStoryPointsPerItem }

/-! ## Spec-side helper -/

/-- Story points of the tasks of `l` assigned to `a` — the "summed story
points over the closed-items set" of the spec, used to characterize the
full-time-contributor count. -/
def closedPointsOf (l : List Task) (a : String) : ℚ :=
  ((l.filter fun t => decide (t.GetAssignee = a)).map Task.GetStoryPoints).sum

/-! ## Concrete inputs for witnesses and counterexamples -/

/-- A row with every column missing/empty. -/
def baseRow : Row :=
  { summary := ""
    issue_key := ""
    issue_type := ""
    status := ""
    status_category := ""
    platform := ""
    assignee := ""
    labels := ""
    story_points := .nanValue
    created := .absent
    updated := .absent
    statusCategoryChanged := .absent
    sprint := "" }

/-- A Done task closed on day 1, created on day 0, 3 points. -/
def wDone : Task :=
  Task.ofRow
    { baseRow with
        status_category := "Done", platform := "Backend", assignee := "alice"
        issue_type := "Story", story_points := .num 3
        created := .valid 0, statusCategoryChanged := .valid 86400 }

/-- A Done task whose closure timestamp is one second after
`endOfDay 5`. -/
def wLate : Task :=
  Task.ofRow
    { baseRow with status_category := "Done", statusCategoryChanged := .valid (6 * 86400) }

/-- A Done task with no usable closure date. -/
def wAbsent : Task :=
  Task.ofRow { baseRow with status_category := "Done" }

/-- A row whose story-points cell holds the negative number `-3`. -/
def negRow : Row := { baseRow with story_points := .num (-3) }

/-- Sprint for C2: one closed task, so `GetAICapacity` reaches the
`HasLabel` call. -/
def cex2 : Sprint := Sprint.mk [wDone] 0 5

/-- A closed Backend task carrying the raw label string "ab". -/
def t3ab : Task :=
  Task.ofRow
    { baseRow with
        status_category := "Done", platform := "Backend", assignee := "alice"
        labels := "ab", story_points := .num 3, statusCategoryChanged := .valid 86400 }

/-- Sprint for C3: one labeled closed Backend task. -/
def cex3 : Sprint := Sprint.mk [t3ab] 0 5

/-- An open 2-point Backend task created on day 0. -/
def t5open : Task :=
  Task.ofRow
    { baseRow with platform := "Backend", story_points := .num 2, created := .valid 0 }

/-- A closed 1-point Backend task created on day 0. -/
def t5closed : Task :=
  Task.ofRow
    { baseRow with
        status_category := "Done", platform := "Backend", assignee := "bob"
        story_points := .num 1, created := .valid 0, statusCategoryChanged := .valid 86400 }

/-- Sprint for C5's counterexample: 3 planned, 1 completed, so the naive
scope drop is the repeating decimal `200/3`. -/
def cex5 : Sprint := Sprint.mk [t5open, t5closed] 0 5

/-- Sprint with a single open platform task: `GetSummary` succeeds (no
closed task) and `GetPlatformMetrics` has one row. -/
def w5row : Sprint := Sprint.mk [t5open] 0 5

/-- Originally-planned and closed 5-point task. -/
def t7a : Task :=
  Task.ofRow
    { baseRow with
        status_category := "Done", platform := "Backend", assignee := "alice"
        story_points := .num 5, created := .valid 0, statusCategoryChanged := .valid 86400 }

/-- Originally-planned open task with negative parsed story points. -/
def t7b : Task :=
  Task.ofRow { baseRow with story_points := .num (-3), created := .valid 0 }

/-- Sprint for C7's counterexample: originally-completed 5 exceeds the
originally-planned total 5 + (-3) = 2. -/
def cex7 : Sprint := Sprint.mk [t7a, t7b] 0 5

/-- A closed task whose single assignee totals exactly 4.9 points. -/
def t49 : Task :=
  Task.ofRow
    { baseRow with
        status_category := "Done", assignee := "alice"
        story_points := .num (49 / 10), statusCategoryChanged := .valid 86400 }

/-- Boundary sprint: assignee sum exactly 4.9. -/
def b49 : Sprint := Sprint.mk [t49] 0 5

/-- A closed task whose single assignee totals exactly 5.0 points. -/
def t50 : Task :=
  Task.ofRow
    { baseRow with
        status_category := "Done", assignee := "alice"
        story_points := .num 5, statusCategoryChanged := .valid 86400 }

/-- Boundary sprint: assignee sum exactly 5.0. -/
def b50 : Sprint := Sprint.mk [t50] 0 5

/-- A closed task with an empty platform tag. -/
def tEmptyPlat : Task :=
  Task.ofRow
    { baseRow with
        status_category := "Done", issue_type := "Bug", story_points := .num 2
        statusCategoryChanged := .valid 86400 }

/-- Sprint for C10's witness: a closed empty-platform task next to a
closed Backend task. -/
def w10 : Sprint := Sprint.mk [tEmptyPlat, wDone] 0 5

/-- The empty sprint. -/
def emptySprint : Sprint := Sprint.mk [] 0 5

/-- The summary `GetSummary` produces for `w5row`. -/
def w5summary : Summary :=
  { total_tasks := 1
    active_platforms := 1
    platforms := ["Backend"]
    total_completed := 0
    total_planned := 2
    originally_planned := 2
    originally_completed := 0
    ai_capacity := 0
    naive_scope_drop := 100
    actual_scope_drop := 100
    completed_items := 0
    total_contributors := 0
    full_time_contributors := 0
    avg_capacity_per_contributor := 0
    avg_story_points_per_item := 0 }

/-- The single `GetPlatformMetrics` row of `w5row`. -/
def w5platRow : PlatRow :=
  { Platform := "Backend"
    Completed_Story_Points := 0
    Completed_Items := 0
    Avg_Story_Points := 0
    Contributors := 0
    Avg_Capacity_Per_Contributor := 0
    Total_Planned_Story_Points := 2
    First_Day_Planned_Story_Points := 2
    First_Day_Completed_Story_Points := 0
    Naive_Scope_Drop := 100
    Actual_Scope_Drop := 100 }

/-- A sprint whose only task has nonnegative story points. -/
def w7sprint : Sprint := Sprint.mk [t7a] 0 5

/-- The single `GetPlatformMetrics` row of `w10` (only the Backend task
has a platform tag; its sole assignee totals 3 < 5 points, so the
full-time count is 0). -/
def w10row : PlatRow :=
  { Platform := "Backend"
    Completed_Story_Points := 3
    Completed_Items := 1
    Avg_Story_Points := 3
    Contributors := 0
    Avg_Capacity_Per_Contributor := 0
    Total_Planned_Story_Points := 3
    First_Day_Planned_Story_Points := 3
    First_Day_Completed_Story_Points := 3
    Naive_Scope_Drop := 0
    Actual_Scope_Drop := 0 }

/-! ## Dictionary lemmas -/

@[simp]
theorem keysOf_nil {α β : Type} : keysOf ([] : List (α × β)) = [] := rfl

@[simp]
theorem keysOf_cons {α β : Type} (p : α × β) (l : List (α × β)) :
    keysOf (p :: l) = p.1 :: keysOf l := rfl

section DictLemmas

variable {α β : Type} [DecidableEq α]

theorem keysOf_dictUpd (init : β) (f : β → β) (l : List (α × β)) (k : α) :
    keysOf (dictUpd init f l k) =
      if k ∈ keysOf l then keysOf l else keysOf l ++ [k] := by
  induction l with
  | nil => simp [dictUpd]
  | cons hd tl ih =>
      obtain ⟨a, b⟩ := hd
      by_cases h : a = k
      · subst h
        simp [dictUpd]
      · simp only [dictUpd, if_neg h, keysOf_cons]
        rw [ih]
        by_cases hm : k ∈ keysOf tl
        · simp [hm, List.mem_cons, Ne.symm h]
        · simp [hm, List.mem_cons, Ne.symm h]

theorem mem_keysOf_dictUpd (init : β) (f : β → β) (l : List (α × β)) (k x : α) :
    x ∈ keysOf (dictUpd init f l k) ↔ x ∈ keysOf l ∨ x = k := by
  rw [keysOf_dictUpd]
  by_cases hm : k ∈ keysOf l
  · simp only [if_pos hm]
    exact ⟨Or.inl, fun h => h.elim id fun e => e ▸ hm⟩
  · simp [if_neg hm]

theorem nodup_keysOf_dictUpd (init : β) (f : β → β) (l : List (α × β)) (k : α)
    (h : (keysOf l).Nodup) : (keysOf (dictUpd init f l k)).Nodup := by
  rw [keysOf_dictUpd]
  by_cases hm : k ∈ keysOf l
  · simpa [hm]
  · simp [hm, List.nodup_append, h]

@[simp]
theorem valAt_nil (k : α) : valAt ([] : List (α × ℚ)) k = 0 := rfl

theorem valAt_cons (p : α × ℚ) (l : List (α × ℚ)) (k : α) :
    valAt (p :: l) k = (if p.1 = k then p.2 else 0) + valAt l k := by
  by_cases h : p.1 = k <;> simp [valAt, List.filter_cons, h]

theorem valAt_of_not_mem (l : List (α × ℚ)) (x : α) (h : x ∉ keysOf l) : valAt l x = 0 := by
  induction l with
  | nil => simp
  | cons p tl ih =>
      rw [valAt_cons]
      have h1 : p.1 ≠ x := fun e => h (by simp [e])
      have h2 : x ∉ keysOf tl := fun e => h (by simp [e])
      simp [h1, ih h2]

theorem valAt_updateAdd_self (l : List (α × ℚ)) (k : α) (v : ℚ) :
    valAt (updateAdd l k v) k = valAt l k + v := by
  induction l with
  | nil => simp [updateAdd, dictUpd, valAt_cons]
  | cons p tl ih =>
      obtain ⟨a, b⟩ := p
      by_cases h : a = k
      · subst h
        simp [updateAdd, dictUpd, valAt_cons]
        ring
      · simp only [updateAdd, dictUpd, if_neg h, valAt_cons]
        simp only [updateAdd] at ih
        simp [h, ih]

theorem valAt_updateAdd_ne (l : List (α × ℚ)) (k x : α) (v : ℚ) (h : x ≠ k) :
    valAt (updateAdd l k v) x = valAt l x := by
  induction l with
  | nil => simp [updateAdd, dictUpd, valAt_cons, Ne.symm h]
  | cons p tl ih =>
      obtain ⟨a, b⟩ := p
      by_cases ha : a = k
      · subst ha
        simp [updateAdd, dictUpd, valAt_cons, Ne.symm h]
      · simp only [updateAdd, dictUpd, if_neg ha, valAt_cons]
        simp only [updateAdd] at ih
        simp [ih]

theorem sumSnd_updateAdd (l : List (α × ℚ)) (k : α) (v : ℚ) :
    ((updateAdd l k v).map Prod.snd).sum = (l.map Prod.snd).sum + v := by
  induction l with
  | nil => simp [updateAdd, dictUpd]
  | cons p tl ih =>
      obtain ⟨a, b⟩ := p
      by_cases h : a = k
      · subst h
        simp [updateAdd, dictUpd]
        ring
      · simp only [updateAdd, dictUpd, if_neg h, List.map_cons, List.sum_cons]
        simp only [updateAdd] at ih
        simp [ih]
        ring

theorem length_filter_val (c : ℚ) (l : List (α × ℚ)) (h : (keysOf l).Nodup) :
    (l.filter fun p => decide (c ≤ p.2)).length =
      ((keysOf l).filter fun x => decide (c ≤ valAt l x)).length := by
  induction l with
  | nil => simp
  | cons p tl ih =>
      obtain ⟨a, b⟩ := p
      rw [keysOf_cons] at h
      obtain ⟨ha, htl⟩ := List.nodup_cons.mp h
      have hval : valAt ((a, b) :: tl) a = b := by
        rw [valAt_cons]
        simp [valAt_of_not_mem tl a ha]
      have hcongr : ∀ x ∈ keysOf tl,
          (decide (c ≤ valAt ((a, b) :: tl) x)) = (decide (c ≤ valAt tl x)) := by
        intro x hx
        have hxa : a ≠ x := fun e => ha (e ▸ hx)
        rw [valAt_cons]
        simp [hxa]
      rw [keysOf_cons, List.filter_cons, List.filter_cons, List.filter_congr hcongr]
      by_cases hcb : c ≤ b <;> simp [hcb, hval, ih htl]

end DictLemmas

/-! ## Lemmas about the accumulation folds -/

section FoldLemmas

variable {α : Type} [DecidableEq α]

theorem mem_keysOf_dsum_fold (key : Task → α) (use : Task → Bool) (l : List Task) :
    ∀ (acc : List (α × ℚ)) (x : α),
      (x ∈ keysOf (l.foldl
          (fun acc t => if use t then updateAdd acc (key t) t.story_points else acc) acc) ↔
        x ∈ keysOf acc ∨ ∃ t ∈ l, use t = true ∧ key t = x) := by
  induction l with
  | nil => simp
  | cons hd tl ih =>
      intro acc x
      simp only [List.foldl_cons]
      by_cases hu : use hd
      · rw [if_pos hu, ih]
        simp only [updateAdd, mem_keysOf_dictUpd, List.mem_cons]
        constructor
        · rintro ((h | h) | ⟨t, ht, hut, hkt⟩)
          · exact Or.inl h
          · exact Or.inr ⟨hd, Or.inl rfl, hu, h.symm⟩
          · exact Or.inr ⟨t, Or.inr ht, hut, hkt⟩
        · rintro (h | ⟨t, ht | ht, hut, hkt⟩)
          · exact Or.inl (Or.inl h)
          · exact Or.inl (Or.inr (ht ▸ hkt.symm))
          · exact Or.inr ⟨t, ht, hut, hkt⟩
      · rw [if_neg hu, ih]
        simp only [List.mem_cons]
        constructor
        · rintro (h | ⟨t, ht, hut, hkt⟩)
          · exact Or.inl h
          · exact Or.inr ⟨t, Or.inr ht, hut, hkt⟩
        · rintro (h | ⟨t, ht | ht, hut, hkt⟩)
          · exact Or.inl h
          · exact absurd (ht ▸ hut) hu
          · exact Or.inr ⟨t, ht, hut, hkt⟩

theorem nodup_keysOf_dsum_fold (key : Task → α) (use : Task → Bool) (l : List Task) :
    ∀ acc, (keysOf acc).Nodup →
      (keysOf (l.foldl
        (fun acc t => if use t then updateAdd acc (key t) t.story_points else acc) acc)).Nodup := by
  induction l with
  | nil => intro acc h; simpa
  | cons hd tl ih =>
      intro acc h
      simp only [List.foldl_cons]
      by_cases hu : use hd
      · rw [if_pos hu]
        exact ih _ (nodup_keysOf_dictUpd _ _ acc (key hd) h)
      · rw [if_neg hu]
        exact ih _ h

theorem valAt_dsum_fold (key : Task → α) (use : Task → Bool) (l : List Task) (x : α) :
    ∀ acc,
      valAt (l.foldl
          (fun acc t => if use t then updateAdd acc (key t) t.story_points else acc) acc) x
        = valAt acc x +
            ((l.filter fun t => use t && decide (key t = x)).map Task.GetStoryPoints).sum := by
  induction l with
  | nil => simp
  | cons hd tl ih =>
      intro acc
      simp only [List.foldl_cons, List.filter_cons]
      by_cases hu : use hd
      · by_cases hk : key hd = x
        · have hb : (use hd && decide (key hd = x)) = true := by simp [hu, hk]
          rw [if_pos hu, hb, ih]
          subst hk
          rw [valAt_updateAdd_self]
          simp [Task.GetStoryPoints]
          ring
        · have hb : (use hd && decide (key hd = x)) = false := by simp [hk]
          rw [if_pos hu, hb, ih, valAt_updateAdd_ne _ _ _ _ (Ne.symm hk)]
          simp
      · have hb : (use hd && decide (key hd = x)) = false := by simp [hu]
        rw [if_neg hu, hb, ih]
        simp

theorem sumSnd_dsum_fold (key : Task → α) (use : Task → Bool) (l : List Task) :
    ∀ acc,
      (((l.foldl
          (fun acc t => if use t then updateAdd acc (key t) t.story_points else acc) acc).map
            Prod.snd).sum
        = ((acc.map Prod.snd).sum) + ((l.filter use).map Task.GetStoryPoints).sum) := by
  induction l with
  | nil => simp
  | cons hd tl ih =>
      intro acc
      simp only [List.foldl_cons, List.filter_cons]
      by_cases hu : use hd
      · rw [if_pos hu, if_pos hu, ih, sumSnd_updateAdd]
        simp [Task.GetStoryPoints]
        ring
      · rw [if_neg hu, if_neg hu, ih]

theorem mem_keysOf_dsumBy (key : Task → α) (use : Task → Bool) (l : List Task) (x : α) :
    x ∈ keysOf (dsumBy key use l) ↔ ∃ t ∈ l, use t = true ∧ key t = x := by
  have := mem_keysOf_dsum_fold key use l [] x
  simpa [dsumBy] using this

theorem nodup_keysOf_dsumBy (key : Task → α) (use : Task → Bool) (l : List Task) :
    (keysOf (dsumBy key use l)).Nodup := by
  have := nodup_keysOf_dsum_fold key use l [] (by simp)
  simpa [dsumBy] using this

theorem valAt_dsumBy (key : Task → α) (use : Task → Bool) (l : List Task) (x : α) :
    valAt (dsumBy key use l) x
      = ((l.filter fun t => use t && decide (key t = x)).map Task.GetStoryPoints).sum := by
  have := valAt_dsum_fold key use l x []
  simpa [dsumBy] using this

theorem sumSnd_dsumBy (key : Task → α) (use : Task → Bool) (l : List Task) :
    ((dsumBy key use l).map Prod.snd).sum = ((l.filter use).map Task.GetStoryPoints).sum := by
  have := sumSnd_dsum_fold key use l []
  simpa [dsumBy] using this

end FoldLemmas

/-! ## Rounding lemmas -/

theorem roundHalfEven_intCast (n : ℤ) : roundHalfEven (n : ℚ) = n := by
  unfold roundHalfEven
  norm_num [Int.floor_intCast]

theorem round1_idem (q : ℚ) : round1 (round1 q) = round1 q := by
  unfold round1
  rw [div_mul_cancel₀ _ (by norm_num : (10 : ℚ) ≠ 0), roundHalfEven_intCast]

/-! ## Monotone-sum lemma for the scope inequality -/

theorem sum_filter_and_le (l : List Task) (h : ∀ t ∈ l, 0 ≤ t.story_points)
    (p q : Task → Bool) :
    ((l.filter fun t => p t && q t).map Task.GetStoryPoints).sum ≤
      ((l.filter q).map Task.GetStoryPoints).sum := by
  induction l with
  | nil => simp
  | cons hd tl ih =>
      have h0 : 0 ≤ hd.story_points := h hd (List.mem_cons_self hd tl)
      have ih' := ih fun t ht => h t (List.mem_cons_of_mem hd ht)
      rw [List.filter_cons, List.filter_cons]
      by_cases hq : q hd
      · by_cases hp : p hd
        · simp only [hp, hq, Bool.and_self, if_pos, List.map_cons, List.sum_cons]
          exact add_le_add_left ih' _
        · simp only [hp, hq, Bool.false_and, Bool.and_true, if_pos, List.map_cons,
            List.sum_cons]
          simp only [Bool.false_eq_true, if_false]
          calc ((tl.filter fun t => p t && q t).map Task.GetStoryPoints).sum
              ≤ ((tl.filter q).map Task.GetStoryPoints).sum := ih'
            _ ≤ hd.GetStoryPoints + ((tl.filter q).map Task.GetStoryPoints).sum := by
                have : (0 : ℚ) ≤ hd.GetStoryPoints := h0
                linarith
      · simp only [hq, Bool.and_false, Bool.false_eq_true, if_false]
        exact ih'

/-! ## Keys of the platform dict are non-empty platform tags -/

theorem keysOf_platformGroups_ne_empty (s : Sprint) :
    ∀ x ∈ keysOf s.platformGroups, x ≠ "" := by
  have main : ∀ (l : List Task) (acc : List (String × GroupAcc)),
      (∀ y ∈ keysOf acc, y ≠ "") →
      ∀ y ∈ keysOf (l.foldl
        (fun acc t =>
          if t.GetPlatform = "" then acc
          else
            dictUpd GroupAcc.init
              (GroupAcc.addTask t (t.IsClosed s.start_date s.end_date)
                (t.IsOriginallyPlanned s.start_date))
              acc t.GetPlatform)
        acc), y ≠ "" := by
    intro l
    induction l with
    | nil => intro acc h; simpa using h
    | cons hd tl ih =>
        intro acc h
        simp only [List.foldl_cons]
        by_cases hp : hd.GetPlatform = ""
        · rw [if_pos hp]; exact ih acc h
        · rw [if_neg hp]
          refine ih _ ?_
          intro y hy
          rcases (mem_keysOf_dictUpd _ _ acc hd.GetPlatform y).mp hy with h1 | h1
          · exact h y h1
          · exact h1 ▸ hp
  intro x hx
  exact main s.tasks [] (by simp) x hx

/-! ## Structure of the contributor-points dict -/

theorem contributorPoints_keys_nodup (s : Sprint) : (keysOf s.contributorPoints).Nodup :=
  nodup_keysOf_dsumBy _ _ _

theorem mem_keysOf_contributorPoints (s : Sprint) (x : String) :
    x ∈ keysOf s.contributorPoints ↔
      x ≠ "" ∧ ∃ t ∈ s.GetClosedTasks, t.GetAssignee = x := by
  rw [Sprint.contributorPoints, mem_keysOf_dsumBy]
  constructor
  · rintro ⟨t, ht, hu, hk⟩
    exact ⟨hk ▸ of_decide_eq_true hu, t, ht, hk⟩
  · rintro ⟨hx, t, ht, hk⟩
    exact ⟨t, ht, decide_eq_true (hk ▸ hx), hk⟩

theorem valAt_contributorPoints (s : Sprint) (x : String) (hx : x ≠ "") :
    valAt s.contributorPoints x = closedPointsOf s.GetClosedTasks x := by
  rw [Sprint.contributorPoints, valAt_dsumBy, closedPointsOf]
  congr 2
  apply List.filter_congr
  intro t _
  by_cases h : t.GetAssignee = x
  · simp [h, hx]
  · simp [h]

/-! ## Claim theorems -/

/-- C1: `IsClosed(sprintStart, sprintEnd)` is true exactly when the
status category is "Done", a closure date is present, and that date lies
between the sprint start and `endOfDay(sprintEnd)` (start plus one day
minus one second); a closure one second after `endOfDay(sprintEnd)`
yields false, and an absent closure date yields false (the function is
total, so no error is possible). -/
theorem C1_isClosed_boundary :
    ∀ (t : Task) (ss se : Int),
      (t.IsClosed ss se = true ↔
        t.status_category = "Done" ∧
          ∃ c, t.closure_date = some c ∧ dayStart ss ≤ c ∧ c ≤ endOfDay se) ∧
      (t.closure_date = some (endOfDay se + 1) → t.IsClosed ss se = false) ∧
      (t.closure_date = none → t.IsClosed ss se = false) := by
  intro t ss se
  refine ⟨?_, ?_, ?_⟩
  · unfold Task.IsClosed
    by_cases h : t.status_category = "Done"
    · cases hc : t.closure_date with
      | none => simp [h, hc]
      | some c => simp [h, hc]
    · simp [h]
  · intro hc
    unfold Task.IsClosed
    by_cases h : t.status_category = "Done"
    · rw [hc]
      simp only [h, ne_eq, not_true_eq_false, if_false, decide_eq_false_iff_not, not_and]
      intro _ h2
      omega
    · simp [h]
  · intro hc
    unfold Task.IsClosed
    rw [hc]
    by_cases h : t.status_category = "Done" <;> simp [h]

/-- Witness for C1 at concrete tasks: a closure one second past the end
boundary is not closed, an absent closure date is not closed, and a
mid-sprint Done closure is closed. -/
theorem C1_witness :
    wLate.IsClosed 0 5 = false ∧ wAbsent.IsClosed 0 5 = false ∧ wDone.IsClosed 0 5 = true :=
  ⟨(C1_isClosed_boundary wLate 0 5).2.1 (by decide),
   (C1_isClosed_boundary wAbsent 0 5).2.2 rfl,
   (C1_isClosed_boundary wDone 0 5).1.mpr ⟨rfl, 86400, rfl, by decide, by decide⟩⟩

/-- C2 (code-bug evidence): `GetAICapacity` calls the nonexistent
`Task.HasLabel`, so it raises `AttributeError` for any sprint with a
closed task, contradicting the no-query-ever-aborts claim; only the
empty-closed-set path returns (with value 0). -/
theorem C2_ai_capacity_attribute_error :
    cex2.GetAICapacity = Except.error PyError.attributeError ∧
      (Sprint.mk [] 0 5).GetAICapacity = Except.ok 0 := by
  constructor
  · rfl
  · show Except.ok (round1 0) = Except.ok 0
    norm_num [round1, roundHalfEven]

/-- C3 (code-bug evidence): for a Backend task with raw label string
"ab", `GetPlatformLabelMetrics` groups by the single characters "a" and
"b" (the raw string is iterated, never parsed), and then raises
`AttributeError` at the `task.HasLabel(label)` filter; only a platform
with no tasks returns (an empty table). -/
theorem C3_label_metrics_attribute_error :
    keysOf (cex3.labelGroups (cex3.tasks.filter fun t => t.GetPlatform = "Backend")) =
        ["a", "b"] ∧
      cex3.GetPlatformLabelMetrics "Backend" = Except.error PyError.attributeError ∧
      cex3.GetPlatformLabelMetrics "Mobile" = Except.ok [] := by
  refine ⟨?_, ?_, ?_⟩ <;> rfl

/-- C4 counterexample: the constructed item for a row whose story-points
cell parses to the negative number -3 has negative `story_points`,
refuting "story_points >= 0.0 for every constructed item". -/
theorem C4_counterexample : ¬ (0 ≤ (Task.ofRow negRow).story_points) := by decide

/-- C4 (amended): missing (`pd.isna`) and unparsable story-point values
coerce to 0.0 without failing, and any parseable numeric value is stored
unchanged — hence `story_points` is nonnegative whenever the input value
is, but a negative numeric input is stored negative. -/
theorem C4_story_points_parse :
    (∀ r : Row, r.story_points = CellValue.nanValue → (Task.ofRow r).story_points = 0) ∧
    (∀ r : Row, r.story_points = CellValue.invalid → (Task.ofRow r).story_points = 0) ∧
    (∀ (r : Row) (q : ℚ), r.story_points = CellValue.num q → (Task.ofRow r).story_points = q) ∧
    (∀ (r : Row) (q : ℚ), r.story_points = CellValue.num q → 0 ≤ q →
      0 ≤ (Task.ofRow r).story_points) := by
  refine ⟨fun r h => ?_, fun r h => ?_, fun r q h => ?_, fun r q h hq => ?_⟩ <;>
    simp [Task.ofRow, h, parseStoryPoints]
  exact hq

/-- Witness for C4 at concrete cells: NaN and invalid cells give 0,
a numeric cell passes through, and a nonnegative cell stays
nonnegative. -/
theorem C4_witness :
    (Task.ofRow { baseRow with story_points := .nanValue }).story_points = 0 ∧
    (Task.ofRow { baseRow with story_points := .invalid }).story_points = 0 ∧
    (Task.ofRow { baseRow with story_points := .num 3 }).story_points = 3 ∧
    0 ≤ (Task.ofRow { baseRow with story_points := .num 3 }).story_points :=
  ⟨C4_story_points_parse.1 _ rfl, C4_story_points_parse.2.1 _ rfl,
   C4_story_points_parse.2.2.1 _ 3 rfl, C4_story_points_parse.2.2.2 _ 3 rfl (by norm_num)⟩

/-- C6: both scope drops are 0.0 on the empty item sequence, and every
guarded ratio resolves to 0.0 when its denominator is zero. -/
theorem C6_zero_denominator_policy :
    (∀ ss se : Int,
        (Sprint.mk [] ss se).GetNaiveScopeDrop = 0 ∧
          (Sprint.mk [] ss se).GetActualScopeDrop = 0) ∧
      ∀ s : Sprint,
        (s.GetTotalPlannedStoryPoints = 0 → s.GetNaiveScopeDrop = 0) ∧
        (s.GetOriginallyPlannedStoryPoints = 0 → s.GetActualScopeDrop = 0) ∧
        (s.GetCompletedItems = 0 → s.GetAverageStoryPointsPerItem = 0) ∧
        (s.GetFullTimeContributorsCount = 0 → s.GetAverageCapacityPerContributor = 0) := by
  constructor
  · intro ss se
    exact ⟨rfl, rfl⟩
  · intro s
    refine ⟨fun h => ?_, fun h => ?_, fun h => ?_, fun h => ?_⟩
    · unfold Sprint.GetNaiveScopeDrop
      rw [if_pos h]
    · unfold Sprint.GetActualScopeDrop
      rw [if_pos h]
    · unfold Sprint.GetAverageStoryPointsPerItem
      rw [if_pos h]
    · unfold Sprint.GetAverageCapacityPerContributor
      rw [if_pos h]

/-- Witness for C6: the guarded ratios all evaluate to 0 on the empty
sprint. -/
theorem C6_witness :
    emptySprint.GetNaiveScopeDrop = 0 ∧ emptySprint.GetActualScopeDrop = 0 ∧
      emptySprint.GetAverageStoryPointsPerItem = 0 ∧
      emptySprint.GetAverageCapacityPerContributor = 0 :=
  ⟨(C6_zero_denominator_policy.2 emptySprint).1 rfl,
   (C6_zero_denominator_policy.2 emptySprint).2.1 rfl,
   (C6_zero_denominator_policy.2 emptySprint).2.2.1 rfl,
   (C6_zero_denominator_policy.2 emptySprint).2.2.2 rfl⟩

/-- C5 counterexample: `GetNaiveScopeDrop()` itself returns the
unrounded value 200/3, which is not a one-decimal value, refuting the
claim that the value returned by `NaiveScopeDrop()` is rounded to one
decimal place. -/
theorem C5_counterexample : cex5.GetNaiveScopeDrop ≠ round1 cex5.GetNaiveScopeDrop := by
  have h : cex5.GetNaiveScopeDrop = 200 / 3 := by
    simp [cex5, t5open, t5closed, Task.ofRow, baseRow, Sprint.GetNaiveScopeDrop,
      Sprint.GetTotalPlannedStoryPoints, Sprint.GetTotalCompletedStoryPoints,
      Sprint.GetClosedTasks, Task.IsClosed, Task.GetStoryPoints, parseStoryPoints, parseDate,
      dayStart, endOfDay, secondsPerDay]
    norm_num
  have h2 : round1 (200 / 3 : ℚ) = 667 / 10 := by
    unfold round1 roundHalfEven
    norm_num
  rw [h, h2]
  norm_num

/-- C5 (amended): the scalar methods return unrounded values; rounding
to one decimal place happens at the point of output instead — in the
percentage/average fields of `GetSummary` and in the rounded columns of
each `GetPlatformMetrics` row. -/
theorem C5_rounding_at_output :
    ∀ s : Sprint,
      (∀ r : Summary, s.GetSummary = Except.ok r →
          r.naive_scope_drop = round1 s.GetNaiveScopeDrop ∧
          r.actual_scope_drop = round1 s.GetActualScopeDrop ∧
          r.avg_story_points_per_item = round1 s.GetAverageStoryPointsPerItem ∧
          r.avg_capacity_per_contributor = round1 s.GetAverageCapacityPerContributor) ∧
      ∀ row ∈ s.GetPlatformMetrics,
          round1 row.Avg_Story_Points = row.Avg_Story_Points ∧
          round1 row.Avg_Capacity_Per_Contributor = row.Avg_Capacity_Per_Contributor ∧
          round1 row.Naive_Scope_Drop = row.Naive_Scope_Drop ∧
          round1 row.Actual_Scope_Drop = row.Actual_Scope_Drop := by
  intro s
  constructor
  · intro r h
    unfold Sprint.GetSummary at h
    cases hai : s.GetAICapacity with
    | error e =>
        rw [hai] at h
        simp [Bind.bind, Except.bind] at h
    | ok ai =>
        rw [hai] at h
        simp only [Bind.bind, Except.bind, pure, Except.pure, Except.ok.injEq] at h
        rw [← h]
        exact ⟨rfl, rfl, rfl, rfl⟩
  · intro row hrow
    obtain ⟨pm, _, heq⟩ := List.mem_map.mp hrow
    rw [← heq]
    exact ⟨round1_idem _, round1_idem _, round1_idem _, round1_idem _⟩

/-- Witness for C5 at a concrete sprint: the summary's scope-drop field
is the rounded scalar value, and a concrete platform row's rounded
columns are fixed points of rounding. -/
theorem C5_witness :
    w5summary.naive_scope_drop = round1 w5row.GetNaiveScopeDrop ∧
      round1 w5platRow.Naive_Scope_Drop = w5platRow.Naive_Scope_Drop := by
  have hsum : w5row.GetSummary = Except.ok w5summary := by
    simp [w5row, t5open, Task.ofRow, baseRow, Sprint.GetSummary, Sprint.GetAICapacity,
      Sprint.GetClosedTasks, Task.IsClosed, Sprint.GetActivePlatforms, Task.GetPlatform,
      Sprint.GetTotalCompletedStoryPoints, Sprint.GetTotalPlannedStoryPoints,
      Sprint.GetOriginallyPlannedStoryPoints, Sprint.GetOriginallyPlannedTasks,
      Sprint.GetOriginallyCompletedStoryPoints, Sprint.GetNaiveScopeDrop,
      Sprint.GetActualScopeDrop, Sprint.GetCompletedItems, Sprint.GetTotalContributors,
      Sprint.GetFullTimeContributorsCount, Sprint.contributorPoints, dsumBy,
      Sprint.GetAverageCapacityPerContributor, Sprint.GetAverageStoryPointsPerItem,
      Task.IsOriginallyPlanned, Task.GetAssignee, Task.GetStoryPoints, parseStoryPoints,
      parseDate, dayStart, endOfDay, secondsPerDay, Int.fdiv, w5summary, round1,
      roundHalfEven, Except.bind, pure, Except.pure, Bind.bind]
    norm_num
  have hrow : w5row.GetPlatformMetrics = [w5platRow] := by
    simp [w5row, t5open, Task.ofRow, baseRow, Sprint.GetPlatformMetrics,
      Sprint.platformGroups, Sprint.mkPlatRow, Sprint.platformContributorPoints, dsumBy,
      dictUpd, updateAdd, GroupAcc.init, GroupAcc.addTask, Task.IsClosed,
      Task.IsOriginallyPlanned, Task.GetPlatform, Task.GetAssignee, Task.GetStoryPoints,
      parseStoryPoints, parseDate, dayStart, endOfDay, secondsPerDay, Int.fdiv, w5platRow,
      round1, roundHalfEven]
    norm_num
  exact ⟨((C5_rounding_at_output w5row).1 w5summary hsum).1,
    ((C5_rounding_at_output w5row).2 w5platRow
      (hrow ▸ List.mem_singleton_self w5platRow)).2.2.1⟩

/-- C7 counterexample: with a negative-point originally-planned open
task, the originally-completed sum 5 exceeds the originally-planned sum
2, refuting the unconditional inequality. -/
theorem C7_counterexample :
    ¬ (cex7.GetOriginallyCompletedStoryPoints ≤
        min cex7.GetOriginallyPlannedStoryPoints cex7.GetTotalCompletedStoryPoints) := by
  have h1 : cex7.GetOriginallyCompletedStoryPoints = 5 := by
    simp [cex7, t7a, t7b, Task.ofRow, baseRow, Sprint.GetOriginallyCompletedStoryPoints,
      Sprint.GetClosedTasks, Task.IsClosed, Task.IsOriginallyPlanned, Task.GetStoryPoints,
      parseStoryPoints, parseDate, dayStart, endOfDay, secondsPerDay, Int.fdiv]
  have h2 : cex7.GetOriginallyPlannedStoryPoints = 2 := by
    simp [cex7, t7a, t7b, Task.ofRow, baseRow, Sprint.GetOriginallyPlannedStoryPoints,
      Sprint.GetOriginallyPlannedTasks, Task.IsOriginallyPlanned, Task.GetStoryPoints,
      parseStoryPoints, parseDate, secondsPerDay, Int.fdiv]
    norm_num
  have h3 : cex7.GetTotalCompletedStoryPoints = 5 := by
    simp [cex7, t7a, t7b, Task.ofRow, baseRow, Sprint.GetTotalCompletedStoryPoints,
      Sprint.GetClosedTasks, Task.IsClosed, Task.GetStoryPoints, parseStoryPoints,
      parseDate, dayStart, endOfDay, secondsPerDay]
  rw [h1, h2, h3]
  norm_num

/-- C7 (amended): provided every item's story points are nonnegative
(which negative numeric input cells can violate),
`OriginallyCompletedPoints <= min(OriginallyPlannedPoints,
TotalCompletedPoints)` holds. -/
theorem C7_scope_inequality (s : Sprint)
    (h : ∀ t ∈ s.tasks, 0 ≤ t.story_points) :
    s.GetOriginallyCompletedStoryPoints ≤
      min s.GetOriginallyPlannedStoryPoints s.GetTotalCompletedStoryPoints := by
  have hc : s.GetOriginallyCompletedStoryPoints
      = ((s.tasks.filter fun t =>
            (t.IsOriginallyPlanned s.start_date) && (t.IsClosed s.start_date s.end_date)).map
          Task.GetStoryPoints).sum := by
    rw [Sprint.GetOriginallyCompletedStoryPoints, Sprint.GetClosedTasks, List.filter_filter]
  refine le_min ?_ ?_
  · rw [hc, Sprint.GetOriginallyPlannedStoryPoints, Sprint.GetOriginallyPlannedTasks]
    have hswap : (s.tasks.filter fun t =>
          (t.IsOriginallyPlanned s.start_date) && (t.IsClosed s.start_date s.end_date))
        = s.tasks.filter fun t =>
            (t.IsClosed s.start_date s.end_date) && (t.IsOriginallyPlanned s.start_date) :=
      List.filter_congr fun t _ => Bool.and_comm _ _
    rw [hswap]
    exact sum_filter_and_le s.tasks h _ _
  · rw [hc, Sprint.GetTotalCompletedStoryPoints, Sprint.GetClosedTasks]
    exact sum_filter_and_le s.tasks h _ _

/-- Witness for C7 at a concrete all-nonnegative sprint. -/
theorem C7_witness :
    w7sprint.GetOriginallyCompletedStoryPoints ≤
      min w7sprint.GetOriginallyPlannedStoryPoints w7sprint.GetTotalCompletedStoryPoints :=
  C7_scope_inequality w7sprint
    (by simp [w7sprint, t7a, Task.ofRow, baseRow, parseStoryPoints])

/-- C8: `GetFullTimeContributorsCount` counts exactly the distinct
non-empty assignees whose summed story points over the closed items are
`>= 5.0`; an assignee totalling exactly 4.9 is excluded and one at
exactly 5.0 is included. -/
theorem C8_full_time_contributors :
    (∀ s : Sprint,
        s.GetFullTimeContributorsCount =
          ((((s.GetClosedTasks.map Task.GetAssignee).filter fun a => a ≠ "").toFinset).filter
              fun a => 5 ≤ closedPointsOf s.GetClosedTasks a).card) ∧
      b49.GetFullTimeContributorsCount = 0 ∧ b50.GetFullTimeContributorsCount = 1 := by
  refine ⟨?_, ?_, ?_⟩
  · intro s
    rw [Sprint.GetFullTimeContributorsCount,
      length_filter_val _ _ (contributorPoints_keys_nodup s),
      ← List.toFinset_card_of_nodup ((contributorPoints_keys_nodup s).filter _),
      List.toFinset_filter]
    congr 1
    ext a
    simp only [Finset.mem_filter, List.mem_toFinset, List.mem_filter, decide_eq_true_eq]
    constructor
    · rintro ⟨hk, hv⟩
      obtain ⟨hne, t, ht, hta⟩ := (mem_keysOf_contributorPoints s a).mp hk
      refine ⟨⟨List.mem_map.mpr ⟨t, ht, hta⟩, ?_⟩, ?_⟩
      · simpa using hne
      · rw [← valAt_contributorPoints s a hne]
        exact hv
    · rintro ⟨⟨hmem, hne⟩, hv⟩
      have hne' : a ≠ "" := by simpa using hne
      obtain ⟨t, ht, hta⟩ := List.mem_map.mp hmem
      refine ⟨(mem_keysOf_contributorPoints s a).mpr ⟨hne', t, ht, hta⟩, ?_⟩
      rw [valAt_contributorPoints s a hne']
      exact hv
  · simp [b49, t49, Task.ofRow, baseRow, Sprint.GetFullTimeContributorsCount,
      Sprint.contributorPoints, dsumBy, Sprint.GetClosedTasks, Task.IsClosed,
      Task.GetAssignee, parseStoryPoints, parseDate, dayStart, endOfDay, secondsPerDay,
      updateAdd, dictUpd]
    norm_num
  · simp [b50, t50, Task.ofRow, baseRow, Sprint.GetFullTimeContributorsCount,
      Sprint.contributorPoints, dsumBy, Sprint.GetClosedTasks, Task.IsClosed,
      Task.GetAssignee, parseStoryPoints, parseDate, dayStart, endOfDay, secondsPerDay,
      updateAdd, dictUpd]

/-- C9: the full-time-contributor count never exceeds the total
contributor count, since every counted full-time assignee is a distinct
non-empty assignee of some task (the closed list filters the full task
list). -/
theorem C9_full_time_le_total :
    ∀ s : Sprint, s.GetFullTimeContributorsCount ≤ s.GetTotalContributors := by
  intro s
  have h1 : s.GetFullTimeContributorsCount ≤ s.contributorPoints.length :=
    List.length_filter_le _ _
  have h2 : s.contributorPoints.length = (keysOf s.contributorPoints).length :=
    (List.length_map _ _).symm
  have h3 : (keysOf s.contributorPoints).length = (keysOf s.contributorPoints).toFinset.card :=
    (List.toFinset_card_of_nodup (contributorPoints_keys_nodup s)).symm
  have hsub : (keysOf s.contributorPoints).toFinset ⊆
      ((s.tasks.map Task.GetAssignee).filter fun a => a ≠ "").toFinset := by
    intro a ha
    rw [List.mem_toFinset] at ha ⊢
    obtain ⟨hne, t, ht, hta⟩ := (mem_keysOf_contributorPoints s a).mp ha
    rw [Sprint.GetClosedTasks] at ht
    exact List.mem_filter.mpr
      ⟨List.mem_map.mpr ⟨t, List.mem_of_mem_filter ht, hta⟩, by simpa using hne⟩
  calc s.GetFullTimeContributorsCount
      ≤ s.contributorPoints.length := h1
    _ = (keysOf s.contributorPoints).toFinset.card := by rw [h2, h3]
    _ ≤ (((s.tasks.map Task.GetAssignee).filter fun a => a ≠ "").toFinset).card :=
        Finset.card_le_card hsub
    _ = s.GetTotalContributors := rfl

/-- C10: `GetCapacityByType` attributes each closed item to exactly one
`(platform, issueType)` group (the group keys are distinct and every
closed item's key is present — including items with an empty platform
tag, which `GetPlatformMetrics` excludes); consequently the per-group
sums taken before rounding add up to `GetTotalCompletedStoryPoints`,
while the emitted rows round each group sum. -/
theorem C10_capacity_by_type :
    ∀ s : Sprint,
      (keysOf s.capacityByTypeDict).Nodup ∧
      ((s.capacityByTypeDict.map Prod.snd).sum = s.GetTotalCompletedStoryPoints) ∧
      (∀ t ∈ s.GetClosedTasks, (t.GetPlatform, t.GetIssueType) ∈ keysOf s.capacityByTypeDict) ∧
      (s.GetCapacityByType = s.capacityByTypeDict.map fun kv => ⟨kv.1.1, kv.1.2, round1 kv.2⟩) ∧
      (∀ row ∈ s.GetPlatformMetrics, row.Platform ≠ "") := by
  intro s
  refine ⟨nodup_keysOf_dsumBy _ _ _, ?_, ?_, rfl, ?_⟩
  · rw [Sprint.capacityByTypeDict, sumSnd_dsumBy]
    simp [Sprint.GetTotalCompletedStoryPoints]
  · intro t ht
    rw [Sprint.capacityByTypeDict]
    exact (mem_keysOf_dsumBy _ _ _ _).mpr ⟨t, ht, rfl, rfl⟩
  · intro row hrow
    obtain ⟨pm, hpm, heq⟩ := List.mem_map.mp hrow
    have hk : pm.1 ∈ keysOf s.platformGroups := List.mem_map_of_mem Prod.fst hpm
    have hne := keysOf_platformGroups_ne_empty s pm.1 hk
    rw [← heq]
    exact hne

/-- Witness for C10: the closed empty-platform task's `("", "Bug")`
group is present in the capacity dict, and the unrounded group sums add
up to the completed total. -/
theorem C10_witness :
    ((tEmptyPlat.GetPlatform, tEmptyPlat.GetIssueType) ∈ keysOf w10.capacityByTypeDict) ∧
      (w10.capacityByTypeDict.map Prod.snd).sum = w10.GetTotalCompletedStoryPoints ∧
      w10row.Platform ≠ "" := by
  have hrow : w10.GetPlatformMetrics = [w10row] := by
    simp [w10, tEmptyPlat, wDone, Task.ofRow, baseRow, Sprint.GetPlatformMetrics,
      Sprint.platformGroups, Sprint.mkPlatRow, Sprint.platformContributorPoints, dsumBy,
      dictUpd, updateAdd, GroupAcc.init, GroupAcc.addTask, Task.IsClosed,
      Task.IsOriginallyPlanned, Task.GetPlatform, Task.GetAssignee, Task.GetStoryPoints,
      parseStoryPoints, parseDate, dayStart, endOfDay, secondsPerDay, Int.fdiv, w10row,
      round1, roundHalfEven]
    norm_num
  exact ⟨(C10_capacity_by_type w10).2.2.1 tEmptyPlat (by decide),
    (C10_capacity_by_type w10).2.1,
    (C10_capacity_by_type w10).2.2.2.2 w10row (hrow ▸ List.mem_singleton_self w10row)⟩

end Jira
